import Mathlib

/-! NVIDIA Video Effects binding (source/nvidia/vfx/nvidia-vfx.cpp)

A shallow embedding of the constructor, the destructor and the lazy singleton
accessor of `streamfx::nvidia::vfx::vfx`.

The program talks to the operating system, the filesystem and the dynamic
loader.  Every such call is recorded as an `Event`; the answers the outside
world gives are collected in `Env`.  The functions below return the C++ result
together with the list of events in program order.  The effect of a run on the
loader (search directories, mapped modules) is obtained by replaying the events
with `Loader.run`.
-/

namespace streamfx.nvidia.vfx

/-! ## Outside world -/

/-- Outcome of `::streamfx::util::library::load(path)`: the call either throws
or returns a shared pointer, which may be null. -/
inductive LoadResult where
  | threw
  | returned (handle : Option Nat)
  deriving DecidableEq

/-- Observable effects, in the order the program performs them. Logging is not
recorded. -/
inductive Event where
  /-- Construction of the guard `gctx = ::streamfx::obs::gs::context()` -/
  | gsEnter
  /-- Construction of a guard `cctx = ::streamfx::nvidia::cuda::obs::get()->get_context()->enter()` -/
  | cudaEnter
  /-- Destruction of a `cctx` guard -/
  | cudaLeave
  /-- Destruction of the `gctx` guard -/
  | gsLeave
  /-- Call of `GetEnvironmentVariableW(L"NV_VIDEO_EFFECTS_PATH", buffer, nSize)` -/
  | getEnvironmentVariable (nSize : Nat)
  /-- Call of `SHGetKnownFolderPath(FOLDERID_ProgramFiles, ...)` -/
  | getKnownFolderPath
  /-- Call of `std::filesystem::exists(p)` -/
  | fsExists (p : String)
  /-- Call of `AddDllDirectory(dir)` returning cookie `ck` (`0` on failure) -/
  | addDllDirectory (dir : String) (ck : Nat)
  /-- Call of `RemoveDllDirectory(ck)` -/
  | removeDllDirectory (ck : Nat)
  /-- Call of `::streamfx::util::library::load(p)` with its outcome -/
  | libraryLoad (p : String) (r : LoadResult)
  /-- Call of `_library->load_symbol(name)` -/
  | loadSymbol (name : String)
  /-- The owner of library handle `h` lets go of it: the module is unloaded -/
  | libraryRelease (h : Nat)
  /-- Call of `NvVFX_SetU32(nullptr, PARAMETER_GPU, 0)` -/
  | setGpu
  deriving DecidableEq

/-- Answers of the platform to the calls the binding makes, and the library
routines whose source is not part of this file. Paths are represented by their
native character string. -/
structure Env where
  /-- Whether the translation unit is compiled with `WIN32` defined -/
  WIN32 : Bool
  /-- Value of the environment variable `NV_VIDEO_EFFECTS_PATH`, if defined -/
  NV_VIDEO_EFFECTS_PATH : Option String
  /-- String delivered by `SHGetKnownFolderPath(FOLDERID_ProgramFiles, ..)`;
  `none` when the result is not `S_OK` -/
  programFiles : Option String
  /-- Whether something exists at the path -/
  onDisk : String → Bool
  /-- Whether the status query behind `std::filesystem::exists` fails for the
  path with an error other than "not found" (a name that is too long, a
  directory that may not be read), so that the call throws
  `std::filesystem::filesystem_error` -/
  existsThrows : String → Bool
  /-- The operator `std::filesystem::path::operator/` with a relative right operand -/
  pathAppend : String → String → String
  /-- The function `util::platform::native_to_utf8` on a path -/
  native_to_utf8 : String → String
  /-- The cookie `AddDllDirectory` returns for a directory, `0` on failure -/
  AddDllDirectory : String → Nat
  /-- The function `::streamfx::util::library::load` -/
  load : String → LoadResult
  /-- The address `library::load_symbol` gives for a symbol in a module, `0` for null -/
  load_symbol : Nat → String → Nat

/-- State of the dynamic loader that the binding can change. -/
structure Loader where
  /-- Cookies of the directories currently added with `AddDllDirectory`,
  most recent first -/
  dllDirs : List Nat
  /-- Handles of the modules currently mapped through `util::library`,
  most recent first -/
  modules : List Nat
  deriving DecidableEq

/-- Effect of one event on the loader. -/
def Loader.step (l : Loader) : Event → Loader
  | .addDllDirectory _ ck => if ck = 0 then l else { l with dllDirs := ck :: l.dllDirs }
  | .removeDllDirectory ck => { l with dllDirs := l.dllDirs.erase ck }
  | .libraryLoad _ (.returned (some h)) => { l with modules := h :: l.modules }
  | .libraryRelease h => { l with modules := l.modules.erase h }
  | _ => l

/-- Effect of a sequence of events on the loader. -/
def Loader.run (l : Loader) (evs : List Event) : Loader :=
  evs.foldl Loader.step l

/-! ## Constants of the translation unit -/

/-- The macro `LIB_NAME`. -/
def LIB_NAME (WIN32 : Bool) : String :=
  if WIN32 then "NVVideoEffects.dll" else "libNVVideoEffects.so"

/-- The entry points bound by the `NVVFX_LOAD_SYMBOL` block, in source order. -/
def requiredSymbols : List String :=
  ["NvVFX_GetVersion", "NvVFX_CreateEffect", "NvVFX_DestroyEffect",
   "NvVFX_SetU32", "NvVFX_SetS32", "NvVFX_SetF32", "NvVFX_SetF64", "NvVFX_SetU64",
   "NvVFX_SetImage", "NvVFX_SetObject", "NvVFX_SetString", "NvVFX_SetCudaStream",
   "NvVFX_GetU32", "NvVFX_GetS32", "NvVFX_GetF32", "NvVFX_GetF64", "NvVFX_GetU64",
   "NvVFX_GetImage", "NvVFX_GetObject", "NvVFX_GetString", "NvVFX_GetCudaStream",
   "NvVFX_Run", "NvVFX_Load"]

/-- The four `throw std::runtime_error(..)` sites of the constructor. -/
inductive VfxError where
  /-- Thrown at line 112 -/
  | notImplemented
  /-- The `std::filesystem::filesystem_error` that `std::filesystem::exists`
  throws at line 116; nothing in the constructor catches it -/
  | filesystemError
  /-- Thrown at line 118 -/
  | sdkNotInstalled
  /-- Thrown at line 170 -/
  | loadFailed
  /-- Thrown at line 59, through `NVVFX_LOAD_SYMBOL(name)` -/
  | symbolMissing (name : String)
  deriving DecidableEq

/-- The message carried by the exception; the text of a `filesystem_error` is
chosen by the standard library. -/
def VfxError.what (WIN32 : Bool) : VfxError → Option String
  | .notImplemented => some "Not yet implemented."
  | .filesystemError => none
  | .sdkNotInstalled => some ("Failed to load '" ++ LIB_NAME WIN32 ++ "'.")
  | .loadFailed => some ("Failed to load " ++ LIB_NAME WIN32 ++ ".")
  | .symbolMissing name =>
    some ("Failed to load '" ++ name ++ "' from '" ++ LIB_NAME WIN32 ++ "'.")

/-! ## Platform helpers -/

/-- The view of a string through `c_str()`: the characters before the first
NUL. -/
def c_str (s : String) : String :=
  ⟨s.data.takeWhile (fun c => c ≠ '\x00')⟩

/-- The call `GetEnvironmentVariableW(name, buffer, nSize)` as documented: when the
variable is not defined the result is `0`; when the value and its terminating
NUL fit, they are stored and the result is the number of characters without the
NUL; otherwise the result is the size needed for the value and its NUL and the
buffer is left alone. `buffer` stands for the `nSize` characters at
`lpBuffer`. -/
def GetEnvironmentVariableW (value : Option String) (buffer : List Char) : Nat × List Char :=
  match value with
  | none => (0, buffer)
  | some v =>
    if v.length < buffer.length then
      (v.length, v.data ++ '\x00' :: buffer.drop (v.length + 1))
    else
      (v.length + 1, buffer)

/-- The call `std::filesystem::exists(p)` of line 116, the overload without an
error code: `none` when it throws `filesystem_error`, otherwise the answer. -/
def fs_exists (env : Env) (p : String) : Option Bool :=
  if env.existsThrows p then none else some (env.onDisk p)

/-! ## The object -/

/-- Data members of `streamfx::nvidia::vfx::vfx` that the constructor and the
destructor touch. -/
structure Vfx where
  /-- Member `_library`: owning pointer to the loaded module, `none` for null -/
  _library : Option Nat
  /-- Member `_extra`: the `DLL_DIRECTORY_COOKIE`, `0` for `nullptr` -/
  _extra : Nat
  /-- Member `_model_path` -/
  _model_path : String
  /-- The function pointer members, by name, with the address stored -/
  symbols : List (String × Nat)
  deriving DecidableEq

/-- A freshly allocated object before the constructor body runs. -/
def Vfx.fresh : Vfx :=
  { _library := none, _extra := 0, _model_path := "", symbols := [] }

/-- Lines 88-113: locate the SDK. `DWORD` arithmetic does not wrap here, an
environment value has fewer than 32767 characters. -/
def resolve_sdk_path (env : Env) : Except VfxError String × List Event :=
  if env.WIN32 then
    let env_size := (GetEnvironmentVariableW env.NV_VIDEO_EFFECTS_PATH []).1
    if env_size > 0 then
      -- buffer.resize(env_size + 1)
      let buffer := List.replicate (env_size + 1) '\x00'
      let buffer := (GetEnvironmentVariableW env.NV_VIDEO_EFFECTS_PATH buffer).2
      -- sdk_path = std::wstring(buffer.data(), buffer.size())
      (.ok ⟨buffer⟩, [.getEnvironmentVariable 0, .getEnvironmentVariable (env_size + 1)])
    else
      match env.programFiles with
      | some str =>
        (.ok (env.pathAppend (env.pathAppend str "NVIDIA Corporation") "NVIDIA Video Effects"),
          [.getEnvironmentVariable 0, .getKnownFolderPath])
      | none => (.ok "", [.getEnvironmentVariable 0, .getKnownFolderPath])
  else
    (.error .notImplemented, [])

/-- Lines 144-147: the array `paths`. -/
def candidates (env : Env) (sdk_path : String) : List String :=
  [LIB_NAME env.WIN32, env.native_to_utf8 (env.pathAppend sdk_path (LIB_NAME env.WIN32))]

/-- Lines 149-161: the loop over `paths`. The argument `lib` is the current
value of `_library`; an exception leaves it as it is. -/
def load_library (env : Env) : List String → Option Nat → Option Nat × List Event
  | [], lib => (lib, [])
  | path :: rest, lib =>
    let r := env.load path
    let lib := match r with
      | .threw => lib
      | .returned h => h
    if lib.isSome then
      (lib, [.libraryLoad path r])
    else
      let (lib, evs) := load_library env rest lib
      (lib, .libraryLoad path r :: evs)

/-- Lines 177-201: the `NVVFX_LOAD_SYMBOL` statements for the given names. Each
one stores the address and throws when it is null. -/
def load_symbols (env : Env) (h : Nat) :
    List String → List (String × Nat) → Option VfxError × List (String × Nat) × List Event
  | [], tbl => (none, tbl, [])
  | name :: rest, tbl =>
    let addr := env.load_symbol h name
    let tbl := tbl ++ [(name, addr)]
    if addr = 0 then
      (some (.symbolMissing name), tbl, [.loadSymbol name])
    else
      let (e, tbl, evs) := load_symbols env h rest tbl
      (e, tbl, .loadSymbol name :: evs)

/-- Lines 86-206: the constructor body after the two guards are taken. Returns
the exception thrown (if any), the object as the body left it, and the events
of the body. -/
def vfx_body (env : Env) : Option VfxError × Vfx × List Event :=
  match resolve_sdk_path env with
  | (.error e, evs) => (some e, Vfx.fresh, evs)
  | (.ok sdk_path, evs) =>
    match fs_exists env sdk_path with
    | none =>
      -- line 116 throws, the exception leaves the constructor
      (some .filesystemError, Vfx.fresh, evs ++ [.fsExists sdk_path])
    | some false =>
      -- lines 117-118
      (some .sdkNotInstalled, Vfx.fresh, evs ++ [.fsExists sdk_path])
    | some true =>
      let evs := evs ++ [.fsExists sdk_path]
      -- lines 123-142
      let ck := if env.WIN32 then env.AddDllDirectory (c_str sdk_path) else 0
      let evs := evs ++ (if env.WIN32 then [.addDllDirectory (c_str sdk_path) ck] else [])
      let self : Vfx := { Vfx.fresh with _extra := ck }
      -- lines 144-161
      let (lib, levs) := load_library env (candidates env sdk_path) self._library
      let self : Vfx := { self with _library := lib }
      let evs := evs ++ levs
      match lib with
      | none =>
        -- lines 163-171
        (some .loadFailed, self,
          evs ++ (if env.WIN32 ∧ self._extra ≠ 0 then [.removeDllDirectory self._extra] else []))
      | some h =>
        -- line 175
        let self : Vfx := { self with _model_path := env.pathAppend sdk_path "models" }
        -- lines 177-201
        let (e, tbl, sevs) := load_symbols env h requiredSymbols self.symbols
        let self : Vfx := { self with symbols := tbl }
        let evs := evs ++ sevs
        match e with
        | some e => (some e, self, evs)
        | none =>
          -- lines 203-206
          (none, self, evs ++ [.cudaEnter, .setGpu, .cudaLeave])

/-- Modelled from the spec: the class declaration (`nvidia-vfx.hpp`) is not
among the sources, so the type of `_library` is taken from the data model, a
library handle that owns the mapped module and releases it when destroyed. The
uses in this file (`_library.reset()`, `_library->load_symbol(..)`, the test
`if (_library)`) are those of such an owning pointer. This is the destruction
of the data members of an object whose constructor threw: only `_library` has
an effect. -/
def release_members (self : Vfx) : List Event :=
  match self._library with
  | some h => [.libraryRelease h]
  | none => []

/-- The constructor `vfx::vfx()`. The guards `gctx` and `cctx` are locals of the
body: they are destroyed in reverse order when the body is left, normally or
by an exception. When the body throws, the members constructed so far are
destroyed after the locals and the exception reaches the caller. -/
def vfx_ctor (env : Env) : Except VfxError Vfx × List Event :=
  match vfx_body env with
  | (none, self, evs) =>
    (.ok self, [.gsEnter, .cudaEnter] ++ evs ++ [.cudaLeave, .gsLeave])
  | (some e, self, evs) =>
    (.error e, [.gsEnter, .cudaEnter] ++ evs ++ [.cudaLeave, .gsLeave] ++ release_members self)

/-- The destructor `vfx::~vfx()`, lines 62-78. After the body `_library` is
null, so destroying the members has no further effect. -/
def vfx_dtor (WIN32 : Bool) (self : Vfx) : List Event :=
  (if WIN32 ∧ self._extra ≠ 0 then [.removeDllDirectory self._extra] else [])
    ++ [.gsEnter, .cudaEnter]
    ++ (match self._library with
        | some h => [.libraryRelease h]
        | none => [])
    ++ [.cudaLeave, .gsLeave]

/-- The accessor `vfx::model_path()`. -/
def model_path (self : Vfx) : String :=
  self._model_path

/-! ## The lazy singleton accessor -/

/-- The function-local static `instance` of `vfx::get()` with the control
block it refers to. Calls are serialised by the static mutex, so each
operation below is atomic. -/
structure Singleton where
  /-- Identity and contents of the object the weak pointer refers to; `none`
  while the weak pointer is empty -/
  weak_instance : Option (Nat × Vfx)
  /-- Number of `shared_ptr` owners of that object -/
  strong : Nat
  /-- Number of objects constructed so far; the identity of the next one -/
  created : Nat
  deriving DecidableEq

/-- The state at program start. -/
def Singleton.init : Singleton :=
  { weak_instance := none, strong := 0, created := 0 }

/-- The test `instance.expired()`. -/
def Singleton.expired (s : Singleton) : Bool :=
  match s.weak_instance with
  | none => true
  | some _ => s.strong == 0

/-- Lines 216-218: `std::make_shared<vfx>()`, then the assignment to `instance`.
When the constructor throws the assignment is not reached. -/
def construct (env : Env) (s : Singleton) : Except VfxError Nat × Singleton × List Event :=
  match vfx_ctor env with
  | (.ok self, evs) =>
    (.ok s.created,
      { weak_instance := some (s.created, self), strong := 1, created := s.created + 1 }, evs)
  | (.error e, evs) => (.error e, s, evs)

/-- The accessor `vfx::get()`, lines 209-221. The result is the identity of the object the
returned `shared_ptr` owns. -/
def get (env : Env) (s : Singleton) : Except VfxError Nat × Singleton × List Event :=
  match s.weak_instance with
  | none => construct env s
  | some (id, _) =>
    if s.strong = 0 then construct env s
    else (.ok id, { s with strong := s.strong + 1 }, [])

/-- A caller drops a `shared_ptr` obtained from `get`. The last owner runs the
destructor. -/
def release (WIN32 : Bool) (s : Singleton) : Singleton × List Event :=
  match s.weak_instance with
  | none => (s, [])
  | some (_, self) =>
    if s.strong = 1 then ({ s with strong := 0 }, vfx_dtor WIN32 self)
    else ({ s with strong := s.strong - 1 }, [])

/-- What the callers do with the accessor. -/
inductive Op where
  | get (env : Env)
  | release

/-- A sequence of operations: the results of the `get` calls in order, the
final state and all events. -/
def run (WIN32 : Bool) : List Op → Singleton → List (Except VfxError Nat) × Singleton × List Event
  | [], s => ([], s, [])
  | .get env :: ops, s =>
    let (r, s, evs) := get env s
    let (rs, s, evs2) := run WIN32 ops s
    (r :: rs, s, evs ++ evs2)
  | .release :: ops, s =>
    let (s, evs) := release WIN32 s
    let (rs, s, evs2) := run WIN32 ops s
    (rs, s, evs ++ evs2)

/-- The operation is a call of `get`. -/
def Op.isGet : Op → Bool
  | .get _ => true
  | .release => false

/-- Starting with `n` owners, some owner remains before and after every
operation of the sequence. -/
def stays_owned : List Op → Nat → Prop
  | [], n => 0 < n
  | .get _ :: ops, n => 0 < n ∧ stays_owned ops (n + 1)
  | .release :: ops, n => 1 < n ∧ stays_owned ops (n - 1)

/-! ## Reading a trace -/

/-- Number of graphics guards held after the events. -/
def gsHeld : List Event → Int
  | [] => 0
  | .gsEnter :: es => gsHeld es + 1
  | .gsLeave :: es => gsHeld es - 1
  | _ :: es => gsHeld es

/-- Number of CUDA guards held after the events. -/
def cudaHeld : List Event → Int
  | [] => 0
  | .cudaEnter :: es => cudaHeld es + 1
  | .cudaLeave :: es => cudaHeld es - 1
  | _ :: es => cudaHeld es

/-- The event is a library load attempt. -/
def Event.isLoad : Event → Bool
  | .libraryLoad _ _ => true
  | _ => false

/-- The event is a library release. -/
def Event.isRelease : Event → Bool
  | .libraryRelease _ => true
  | _ => false

/-- The event is an `AddDllDirectory` call. -/
def Event.isAddDll : Event → Bool
  | .addDllDirectory _ _ => true
  | _ => false

/-- The event takes or drops a guard. -/
def Event.isGuard : Event → Bool
  | .gsEnter | .gsLeave | .cudaEnter | .cudaLeave => true
  | _ => false

/-- Every event of the trace that satisfies `crit` happens while a graphics
guard and a CUDA guard are held, when `g` graphics guards and `c` CUDA guards
are held at the start of the trace. -/
def guardedAt (crit : Event → Bool) (g c : Int) : List Event → Bool
  | [] => true
  | e :: es =>
    (!crit e || (decide (0 < g) && decide (0 < c)))
      && guardedAt crit (g + gsHeld [e]) (c + cudaHeld [e]) es

/-- The two kinds of guard. -/
inductive Guard where
  | gs
  | cuda
  deriving DecidableEq

/-- Guards are dropped in the reverse order of their acquisition: `held` lists
the guards held at the start of the trace, the most recent first, and none is
held at its end. -/
def wellNested : List Guard → List Event → Bool
  | held, [] => held.isEmpty
  | held, .gsEnter :: es => wellNested (.gs :: held) es
  | held, .cudaEnter :: es => wellNested (.cuda :: held) es
  | .gs :: held, .gsLeave :: es => wellNested held es
  | _, .gsLeave :: _ => false
  | .cuda :: held, .cudaLeave :: es => wellNested held es
  | _, .cudaLeave :: _ => false
  | held, _ :: es => wellNested held es

/-- Event `a` occurs in the trace and `b` occurs after it. -/
def precedes (a b : Event) (evs : List Event) : Bool :=
  decide (a ∈ evs) && decide (b ∈ evs.drop (evs.indexOf a + 1))

/-- The handle a load attempt delivers, `none` when it throws or returns
null. -/
def LoadResult.handle : LoadResult → Option Nat
  | .threw => none
  | .returned h => h

/-! ## Sample environments -/

/-- A path append for the sample environments: a separator between two
non-empty parts. -/
def sampleAppend (a b : String) : String :=
  if a = "" then b else a ++ "\\" ++ b

/-- A Windows machine with the SDK in the standard folder, where everything
works: the bare library name loads as module `1`, every symbol resolves. -/
def envInstalled : Env :=
  { WIN32 := true
    NV_VIDEO_EFFECTS_PATH := none
    programFiles := some "C:\\Program Files"
    onDisk := fun _ => true
    existsThrows := fun _ => false
    pathAppend := sampleAppend
    native_to_utf8 := id
    AddDllDirectory := fun _ => 7
    load := fun p => if p = "NVVideoEffects.dll" then .returned (some 1) else .threw
    load_symbol := fun _ _ => 4096 }

/-- As `envInstalled`, but nothing exists on the filesystem. -/
def envNoSdk : Env :=
  { envInstalled with onDisk := fun _ => false }

/-- A Windows machine where the override variable names a path of 256
characters: nothing exists there, and the status query of
`std::filesystem::exists` fails for a name of more than 255 characters. -/
def envProbeFails : Env :=
  { envInstalled with
    NV_VIDEO_EFFECTS_PATH := some ⟨List.replicate 256 'a'⟩
    onDisk := fun _ => false
    existsThrows := fun p => decide (255 < p.length) }

/-- As `envInstalled`, but the bare name throws in the loader and the qualified
path yields a null pointer. -/
def envNoLibrary : Env :=
  { envInstalled with
    load := fun p => if p = "NVVideoEffects.dll" then .threw else .returned none }

/-- As `envInstalled`, but the module lacks `NvVFX_Run`. -/
def envOldSdk : Env :=
  { envInstalled with load_symbol := fun _ n => if n = "NvVFX_Run" then 0 else 4096 }

/-- As `envInstalled`, with the override variable set to `C:\SDK`. -/
def envOverride : Env :=
  { envInstalled with NV_VIDEO_EFFECTS_PATH := some "C:\\SDK" }

/-- The object `vfx_ctor envInstalled` builds. -/
def vfxInstalled : Vfx :=
  { _library := some 1
    _extra := 7
    _model_path := "C:\\Program Files\\NVIDIA Corporation\\NVIDIA Video Effects\\models"
    symbols := requiredSymbols.map (fun n => (n, 4096)) }

/-! # Theorems -/


/-! ## The loader model -/

theorem Loader.run_append (l : Loader) (xs ys : List Event) :
    Loader.run l (xs ++ ys) = Loader.run (Loader.run l xs) ys := by
  simp [Loader.run, List.foldl_append]

theorem Loader.run_nil (l : Loader) : Loader.run l [] = l := rfl

theorem Loader.run_cons (l : Loader) (e : Event) (es : List Event) :
    Loader.run l (e :: es) = Loader.run (Loader.step l e) es := rfl

/-! ## Path resolution -/

theorem resolve_not_win32 (env : Env) (h : env.WIN32 = false) :
    resolve_sdk_path env = (.error .notImplemented, []) := by
  simp [resolve_sdk_path, h]

theorem resolve_defined (env : Env) (v : String) (hw : env.WIN32 = true)
    (hv : env.NV_VIDEO_EFFECTS_PATH = some v) :
    resolve_sdk_path env =
      (.ok ⟨v.data ++ ['\x00', '\x00']⟩,
        [.getEnvironmentVariable 0, .getEnvironmentVariable (v.length + 2)]) := by
  have hlt : v.length < v.length + 1 + 1 := by omega
  simp [resolve_sdk_path, GetEnvironmentVariableW, hw, hv, List.drop_replicate, hlt]

theorem resolve_absent (env : Env) (hw : env.WIN32 = true)
    (hv : env.NV_VIDEO_EFFECTS_PATH = none) :
    resolve_sdk_path env =
      (.ok (match env.programFiles with
            | some str =>
              env.pathAppend (env.pathAppend str "NVIDIA Corporation") "NVIDIA Video Effects"
            | none => ""),
        [.getEnvironmentVariable 0, .getKnownFolderPath]) := by
  simp only [resolve_sdk_path, GetEnvironmentVariableW, hw, hv]
  cases env.programFiles <;> simp

theorem resolve_ok_win32 (env : Env) (p : String)
    (h : (resolve_sdk_path env).1 = .ok p) : env.WIN32 = true := by
  by_contra hw
  simp [resolve_sdk_path, hw] at h

theorem resolve_run (env : Env) (l : Loader) :
    Loader.run l (resolve_sdk_path env).2 = l := by
  cases hw : env.WIN32
  · rw [resolve_not_win32 env hw]; rfl
  · cases hv : env.NV_VIDEO_EFFECTS_PATH with
    | none => rw [resolve_absent env hw hv]; rfl
    | some v => rw [resolve_defined env v hw hv]; rfl

/-! ## Symbol binding -/

theorem load_symbols_ok (env : Env) (h : Nat) (names : List String)
    (hall : ∀ n ∈ names, env.load_symbol h n ≠ 0) (tbl : List (String × Nat)) :
    load_symbols env h names tbl =
      (none, tbl ++ names.map (fun n => (n, env.load_symbol h n)), names.map Event.loadSymbol) := by
  induction names generalizing tbl with
  | nil => simp [load_symbols]
  | cons n ns ih =>
    have hn : env.load_symbol h n ≠ 0 := hall n (List.mem_cons_self n ns)
    have hns : ∀ m ∈ ns, env.load_symbol h m ≠ 0 := fun m hm => hall m (List.mem_cons_of_mem n hm)
    simp [load_symbols, hn, ih hns]

theorem load_symbols_missing (env : Env) (h : Nat) (names : List String)
    (hex : ∃ n ∈ names, env.load_symbol h n = 0) (tbl : List (String × Nat)) :
    ∃ n ∈ names, env.load_symbol h n = 0 ∧
      (load_symbols env h names tbl).1 = some (.symbolMissing n) := by
  induction names generalizing tbl with
  | nil => simp at hex
  | cons n ns ih =>
    by_cases hn : env.load_symbol h n = 0
    · exact ⟨n, List.mem_cons_self n ns, hn, by simp [load_symbols, hn]⟩
    · have hex2 : ∃ m ∈ ns, env.load_symbol h m = 0 := by
        obtain ⟨m, hm, hm0⟩ := hex
        rcases List.mem_cons.mp hm with rfl | hm
        · exact absurd hm0 hn
        · exact ⟨m, hm, hm0⟩
      obtain ⟨m, hm, hm0, hres⟩ := ih hex2 (tbl ++ [(n, env.load_symbol h n)])
      exact ⟨m, List.mem_cons_of_mem n hm, hm0, by simp [load_symbols, hn, hres]⟩

theorem load_symbols_events (env : Env) (h : Nat) (names : List String)
    (tbl : List (String × Nat)) :
    ∀ ev ∈ (load_symbols env h names tbl).2.2, ∃ n, ev = Event.loadSymbol n := by
  induction names generalizing tbl with
  | nil => simp [load_symbols]
  | cons n ns ih =>
    by_cases hn : env.load_symbol h n = 0
    · simp [load_symbols, hn]
    · intro ev hev
      simp only [load_symbols, hn, if_false, List.mem_cons] at hev
      rcases hev with rfl | hev
      · exact ⟨n, rfl⟩
      · exact ih _ ev hev

/-! ## The load loop -/

theorem load_library_two (env : Env) (a b : String) :
    load_library env [a, b] none =
      match (env.load a).handle with
      | some h => (some h, [.libraryLoad a (env.load a)])
      | none => ((env.load b).handle, [.libraryLoad a (env.load a), .libraryLoad b (env.load b)]) := by
  cases ha : env.load a with
  | threw =>
    cases hb : env.load b with
    | threw => simp [load_library, ha, hb, LoadResult.handle]
    | returned y => cases y <;> simp [load_library, ha, hb, LoadResult.handle]
  | returned x =>
    cases x with
    | some h => simp [load_library, ha, LoadResult.handle]
    | none =>
      cases hb : env.load b with
      | threw => simp [load_library, ha, hb, LoadResult.handle]
      | returned y => cases y <;> simp [load_library, ha, hb, LoadResult.handle]

/-! ## The paths through the constructor body -/

theorem resolve_pair (env : Env) (p : String) (h : (resolve_sdk_path env).1 = .ok p) :
    resolve_sdk_path env = (.ok p, (resolve_sdk_path env).2) := by
  rw [← h]

theorem vfx_body_not_implemented (env : Env) (hw : env.WIN32 = false) :
    vfx_body env = (some .notImplemented, Vfx.fresh, []) := by
  simp [vfx_body, resolve_not_win32 env hw]

theorem vfx_body_no_sdk (env : Env) (p : String) (revs : List Event)
    (hr : resolve_sdk_path env = (.ok p, revs)) (hp : fs_exists env p = some false) :
    vfx_body env = (some .sdkNotInstalled, Vfx.fresh, revs ++ [.fsExists p]) := by
  simp [vfx_body, hr, hp]

theorem vfx_body_exists_threw (env : Env) (p : String) (revs : List Event)
    (hr : resolve_sdk_path env = (.ok p, revs)) (hp : fs_exists env p = none) :
    vfx_body env = (some .filesystemError, Vfx.fresh, revs ++ [.fsExists p]) := by
  simp [vfx_body, hr, hp]

theorem vfx_body_load_failed (env : Env) (p : String) (revs levs : List Event)
    (hr : resolve_sdk_path env = (.ok p, revs)) (hw : env.WIN32 = true)
    (hp : fs_exists env p = some true)
    (hl : load_library env (candidates env p) none = (none, levs)) :
    vfx_body env =
      (some .loadFailed, { Vfx.fresh with _extra := env.AddDllDirectory (c_str p) },
        revs ++ [.fsExists p, .addDllDirectory (c_str p) (env.AddDllDirectory (c_str p))] ++ levs
          ++ (if env.AddDllDirectory (c_str p) ≠ 0
              then [.removeDllDirectory (env.AddDllDirectory (c_str p))] else [])) := by
  simp [vfx_body, hr, hp, hw, hl, Vfx.fresh]

theorem vfx_body_loaded (env : Env) (p : String) (revs levs sevs : List Event) (h : Nat)
    (e : Option VfxError) (tbl : List (String × Nat))
    (hr : resolve_sdk_path env = (.ok p, revs)) (hw : env.WIN32 = true)
    (hp : fs_exists env p = some true)
    (hl : load_library env (candidates env p) none = (some h, levs))
    (hs : load_symbols env h requiredSymbols [] = (e, tbl, sevs)) :
    vfx_body env =
      (e, { _library := some h, _extra := env.AddDllDirectory (c_str p),
            _model_path := env.pathAppend p "models", symbols := tbl },
        revs ++ [.fsExists p, .addDllDirectory (c_str p) (env.AddDllDirectory (c_str p))] ++ levs
          ++ sevs ++ (match e with
                      | some _ => []
                      | none => [.cudaEnter, .setGpu, .cudaLeave])) := by
  cases e <;> simp [vfx_body, hr, hp, hw, hl, hs, Vfx.fresh]

/-! ## The paths through the constructor -/

theorem resolve_win32 (env : Env) (hw : env.WIN32 = true) :
    ∃ p, (resolve_sdk_path env).1 = .ok p := by
  cases hv : env.NV_VIDEO_EFFECTS_PATH with
  | none => exact ⟨_, by rw [resolve_absent env hw hv]⟩
  | some v => exact ⟨_, by rw [resolve_defined env v hw hv]⟩

theorem vfx_ctor_not_implemented (env : Env) (hw : env.WIN32 = false) :
    vfx_ctor env =
      (.error .notImplemented, [.gsEnter, .cudaEnter, .cudaLeave, .gsLeave]) := by
  simp [vfx_ctor, vfx_body_not_implemented env hw, release_members, Vfx.fresh]

theorem vfx_ctor_no_sdk (env : Env) (p : String)
    (hr : (resolve_sdk_path env).1 = .ok p) (hp : fs_exists env p = some false) :
    vfx_ctor env =
      (.error .sdkNotInstalled,
        [.gsEnter, .cudaEnter] ++ (resolve_sdk_path env).2
          ++ [.fsExists p, .cudaLeave, .gsLeave]) := by
  simp [vfx_ctor, vfx_body_no_sdk env p _ (resolve_pair env p hr) hp, release_members, Vfx.fresh]

theorem vfx_ctor_exists_threw (env : Env) (p : String)
    (hr : (resolve_sdk_path env).1 = .ok p) (hp : fs_exists env p = none) :
    vfx_ctor env =
      (.error .filesystemError,
        [.gsEnter, .cudaEnter] ++ (resolve_sdk_path env).2
          ++ [.fsExists p, .cudaLeave, .gsLeave]) := by
  simp [vfx_ctor, vfx_body_exists_threw env p _ (resolve_pair env p hr) hp, release_members,
    Vfx.fresh]

theorem vfx_ctor_load_failed (env : Env) (p : String) (levs : List Event)
    (hr : (resolve_sdk_path env).1 = .ok p) (hp : fs_exists env p = some true)
    (hl : load_library env (candidates env p) none = (none, levs)) :
    vfx_ctor env =
      (.error .loadFailed,
        [.gsEnter, .cudaEnter] ++ (resolve_sdk_path env).2
          ++ [.fsExists p, .addDllDirectory (c_str p) (env.AddDllDirectory (c_str p))] ++ levs
          ++ (if env.AddDllDirectory (c_str p) ≠ 0
              then [.removeDllDirectory (env.AddDllDirectory (c_str p))] else [])
          ++ [.cudaLeave, .gsLeave]) := by
  have hw := resolve_ok_win32 env p hr
  simp [vfx_ctor, vfx_body_load_failed env p _ levs (resolve_pair env p hr) hw hp hl,
    release_members, Vfx.fresh]

theorem vfx_ctor_symbol_missing (env : Env) (p : String) (levs sevs : List Event) (h : Nat)
    (e : VfxError) (tbl : List (String × Nat))
    (hr : (resolve_sdk_path env).1 = .ok p) (hp : fs_exists env p = some true)
    (hl : load_library env (candidates env p) none = (some h, levs))
    (hs : load_symbols env h requiredSymbols [] = (some e, tbl, sevs)) :
    vfx_ctor env =
      (.error e,
        [.gsEnter, .cudaEnter] ++ (resolve_sdk_path env).2
          ++ [.fsExists p, .addDllDirectory (c_str p) (env.AddDllDirectory (c_str p))] ++ levs
          ++ sevs ++ [.cudaLeave, .gsLeave] ++ [.libraryRelease h]) := by
  have hw := resolve_ok_win32 env p hr
  simp [vfx_ctor, vfx_body_loaded env p _ levs sevs h _ tbl (resolve_pair env p hr) hw hp hl hs,
    release_members]

theorem vfx_ctor_ready (env : Env) (p : String) (levs : List Event) (h : Nat)
    (hr : (resolve_sdk_path env).1 = .ok p) (hp : fs_exists env p = some true)
    (hl : load_library env (candidates env p) none = (some h, levs))
    (hall : ∀ n ∈ requiredSymbols, env.load_symbol h n ≠ 0) :
    vfx_ctor env =
      (.ok { _library := some h, _extra := env.AddDllDirectory (c_str p),
             _model_path := env.pathAppend p "models",
             symbols := requiredSymbols.map (fun n => (n, env.load_symbol h n)) },
        [.gsEnter, .cudaEnter] ++ (resolve_sdk_path env).2
          ++ [.fsExists p, .addDllDirectory (c_str p) (env.AddDllDirectory (c_str p))] ++ levs
          ++ requiredSymbols.map Event.loadSymbol ++ [.cudaEnter, .setGpu, .cudaLeave]
          ++ [.cudaLeave, .gsLeave]) := by
  have hw := resolve_ok_win32 env p hr
  have hs := load_symbols_ok env h requiredSymbols hall []
  simp only [List.nil_append] at hs
  simp [vfx_ctor, vfx_body_loaded env p _ levs _ h _ _ (resolve_pair env p hr) hw hp hl hs]

/-- Every run of the constructor takes one of five paths; the second one is
the run that ends at the existence check, by its own throw or by the throw of
line 118. -/
theorem vfx_ctor_cases (env : Env) :
    (env.WIN32 = false ∧
      vfx_ctor env = (.error .notImplemented, [.gsEnter, .cudaEnter, .cudaLeave, .gsLeave])) ∨
    (∃ p e, (resolve_sdk_path env).1 = .ok p ∧
      ((fs_exists env p = none ∧ e = VfxError.filesystemError) ∨
        (fs_exists env p = some false ∧ e = VfxError.sdkNotInstalled)) ∧
      vfx_ctor env =
        (.error e,
          [.gsEnter, .cudaEnter] ++ (resolve_sdk_path env).2
            ++ [.fsExists p, .cudaLeave, .gsLeave])) ∨
    (∃ p levs, (resolve_sdk_path env).1 = .ok p ∧ fs_exists env p = some true ∧
      load_library env (candidates env p) none = (none, levs) ∧
      vfx_ctor env =
        (.error .loadFailed,
          [.gsEnter, .cudaEnter] ++ (resolve_sdk_path env).2
            ++ [.fsExists p, .addDllDirectory (c_str p) (env.AddDllDirectory (c_str p))] ++ levs
            ++ (if env.AddDllDirectory (c_str p) ≠ 0
                then [.removeDllDirectory (env.AddDllDirectory (c_str p))] else [])
            ++ [.cudaLeave, .gsLeave])) ∨
    (∃ p levs sevs h n, (resolve_sdk_path env).1 = .ok p ∧ fs_exists env p = some true ∧
      load_library env (candidates env p) none = (some h, levs) ∧
      n ∈ requiredSymbols ∧ env.load_symbol h n = 0 ∧
      (∀ ev ∈ sevs, ∃ m, ev = Event.loadSymbol m) ∧
      vfx_ctor env =
        (.error (.symbolMissing n),
          [.gsEnter, .cudaEnter] ++ (resolve_sdk_path env).2
            ++ [.fsExists p, .addDllDirectory (c_str p) (env.AddDllDirectory (c_str p))] ++ levs
            ++ sevs ++ [.cudaLeave, .gsLeave] ++ [.libraryRelease h])) ∨
    (∃ p levs h, (resolve_sdk_path env).1 = .ok p ∧ fs_exists env p = some true ∧
      load_library env (candidates env p) none = (some h, levs) ∧
      (∀ n ∈ requiredSymbols, env.load_symbol h n ≠ 0) ∧
      vfx_ctor env =
        (.ok { _library := some h, _extra := env.AddDllDirectory (c_str p),
               _model_path := env.pathAppend p "models",
               symbols := requiredSymbols.map (fun n => (n, env.load_symbol h n)) },
          [.gsEnter, .cudaEnter] ++ (resolve_sdk_path env).2
            ++ [.fsExists p, .addDllDirectory (c_str p) (env.AddDllDirectory (c_str p))] ++ levs
            ++ requiredSymbols.map Event.loadSymbol ++ [.cudaEnter, .setGpu, .cudaLeave]
            ++ [.cudaLeave, .gsLeave])) := by
  cases hw : env.WIN32 with
  | false => exact Or.inl ⟨rfl, vfx_ctor_not_implemented env hw⟩
  | true =>
    obtain ⟨p, hr⟩ := resolve_win32 env hw
    rcases hp : fs_exists env p with _ | _ | _
    · exact Or.inr (Or.inl ⟨p, _, hr, Or.inl ⟨hp, rfl⟩, vfx_ctor_exists_threw env p hr hp⟩)
    · exact Or.inr (Or.inl ⟨p, _, hr, Or.inr ⟨hp, rfl⟩, vfx_ctor_no_sdk env p hr hp⟩)
    · rcases hl : load_library env (candidates env p) none with ⟨lib, levs⟩
      cases lib with
      | none =>
        exact Or.inr (Or.inr (Or.inl ⟨p, levs, hr, hp, hl, vfx_ctor_load_failed env p levs hr hp hl⟩))
      | some h =>
        by_cases hall : ∀ n ∈ requiredSymbols, env.load_symbol h n ≠ 0
        · exact Or.inr (Or.inr (Or.inr (Or.inr
            ⟨p, levs, h, hr, hp, hl, hall, vfx_ctor_ready env p levs h hr hp hl hall⟩)))
        · have hex : ∃ n ∈ requiredSymbols, env.load_symbol h n = 0 := by
            by_contra hne
            exact hall (fun n hn h0 => hne ⟨n, hn, h0⟩)
          obtain ⟨n, hn, h0, hres⟩ := load_symbols_missing env h requiredSymbols hex []
          rcases hs : load_symbols env h requiredSymbols [] with ⟨e, tbl, sevs⟩
          rw [hs] at hres
          simp only at hres
          subst hres
          have hev := load_symbols_events env h requiredSymbols []
          rw [hs] at hev
          exact Or.inr (Or.inr (Or.inr (Or.inl
            ⟨p, levs, sevs, h, n, hr, hp, hl, hn, h0, hev,
              vfx_ctor_symbol_missing env p levs sevs h _ tbl hr hp hl hs⟩)))

/-! ## Effect of the pieces of a trace on the loader -/

theorem Loader.run_inert (l : Loader) (evs : List Event)
    (h : ∀ ev ∈ evs, ∀ l2 : Loader, Loader.step l2 ev = l2) : Loader.run l evs = l := by
  induction evs with
  | nil => rfl
  | cons e es ih =>
    rw [Loader.run_cons, h e (List.mem_cons_self e es) l]
    exact ih (fun ev hev => h ev (List.mem_cons_of_mem e hev))

theorem Loader.run_symbols (l : Loader) (evs : List Event)
    (h : ∀ ev ∈ evs, ∃ m, ev = Event.loadSymbol m) : Loader.run l evs = l := by
  apply Loader.run_inert
  intro ev hev l2
  obtain ⟨m, rfl⟩ := h ev hev
  rfl

theorem Loader.step_load_failed (l : Loader) (p : String) (r : LoadResult)
    (h : r.handle = none) : Loader.step l (.libraryLoad p r) = l := by
  cases r with
  | threw => rfl
  | returned x =>
    cases x with
    | none => rfl
    | some y => simp [LoadResult.handle] at h

theorem Loader.step_load_ok (l : Loader) (p : String) (r : LoadResult) (h : Nat)
    (hr : r.handle = some h) :
    Loader.step l (.libraryLoad p r) = { l with modules := h :: l.modules } := by
  cases r with
  | threw => simp [LoadResult.handle] at hr
  | returned x =>
    cases x with
    | none => simp [LoadResult.handle] at hr
    | some y =>
      simp only [LoadResult.handle, Option.some.injEq] at hr
      subst hr
      rfl

theorem load_library_run (env : Env) (l : Loader) (a b : String) :
    Loader.run l (load_library env [a, b] none).2 =
      match (load_library env [a, b] none).1 with
      | some h => { l with modules := h :: l.modules }
      | none => l := by
  rw [load_library_two]
  cases ha : (env.load a).handle with
  | some h =>
    simp only [Loader.run_cons, Loader.run_nil, Loader.step_load_ok l a _ h ha]
  | none =>
    simp only [Loader.run_cons, Loader.run_nil, Loader.step_load_failed l a _ ha]
    cases hb : (env.load b).handle with
    | some h => simp only [Loader.step_load_ok l b _ h hb]
    | none => simp only [Loader.step_load_failed l b _ hb]

theorem get_expired (env : Env) (s : Singleton) (h : s.expired = true) :
    get env s = construct env s := by
  unfold get
  cases hw : s.weak_instance with
  | none => rfl
  | some x =>
    obtain ⟨id, self⟩ := x
    have h0 : s.strong = 0 := by simpa [Singleton.expired, hw] using h
    simp [h0]

/-! ## Failure before and during loading -/

theorem resolve_events (env : Env) :
    ∀ ev ∈ (resolve_sdk_path env).2,
      ev.isLoad = false ∧ ev.isAddDll = false ∧ ev.isGuard = false ∧ ev.isRelease = false := by
  cases hw : env.WIN32 with
  | false => rw [resolve_not_win32 env hw]; simp
  | true =>
    cases hv : env.NV_VIDEO_EFFECTS_PATH with
    | none =>
      rw [resolve_absent env hw hv]
      simp [Event.isLoad, Event.isAddDll, Event.isGuard, Event.isRelease]
    | some v =>
      rw [resolve_defined env v hw hv]
      simp [Event.isLoad, Event.isAddDll, Event.isGuard, Event.isRelease]

/-- C3 as amended: when nothing exists at the resolved SDK path, the
constructor fails at the existence check of line 116, before any
`AddDllDirectory` call and any library load attempt. The error is the
SDK-not-installed error of line 118 when `std::filesystem::exists` answers, and
the `filesystem_error` of that call when it throws. The same error reaches the
caller of `get`, whose state is left as it was. -/
theorem missing_sdk_fails_before_load (env : Env) (p : String)
    (hr : (resolve_sdk_path env).1 = .ok p) (hp : env.onDisk p = false) :
    vfx_ctor env =
        (.error (if env.existsThrows p then .filesystemError else .sdkNotInstalled),
          [.gsEnter, .cudaEnter] ++ (resolve_sdk_path env).2
            ++ [.fsExists p, .cudaLeave, .gsLeave]) ∧
      (∀ ev ∈ (vfx_ctor env).2, ev.isLoad = false ∧ ev.isAddDll = false) ∧
      (∀ s : Singleton, s.expired = true →
        get env s =
          (.error (if env.existsThrows p then .filesystemError else .sdkNotInstalled), s,
            (vfx_ctor env).2)) := by
  have hc : vfx_ctor env =
      (.error (if env.existsThrows p then .filesystemError else .sdkNotInstalled),
        [.gsEnter, .cudaEnter] ++ (resolve_sdk_path env).2
          ++ [.fsExists p, .cudaLeave, .gsLeave]) := by
    cases ht : env.existsThrows p with
    | true =>
      have hx : fs_exists env p = none := by simp [fs_exists, ht]
      simpa using vfx_ctor_exists_threw env p hr hx
    | false =>
      have hx : fs_exists env p = some false := by simp [fs_exists, ht, hp]
      simpa using vfx_ctor_no_sdk env p hr hx
  refine ⟨hc, ?_, ?_⟩
  · intro ev hev
    rw [hc] at hev
    simp only [List.mem_append, List.mem_cons, List.mem_singleton, List.not_mem_nil,
      or_false] at hev
    rcases hev with ((rfl | rfl) | hev) | rfl | rfl | rfl
    · exact ⟨rfl, rfl⟩
    · exact ⟨rfl, rfl⟩
    · exact ⟨(resolve_events env ev hev).1, (resolve_events env ev hev).2.1⟩
    · exact ⟨rfl, rfl⟩
    · exact ⟨rfl, rfl⟩
    · exact ⟨rfl, rfl⟩
  · intro s hs
    rw [get_expired env s hs, construct, hc]

theorem missing_sdk_fails_before_load_witness :
    (resolve_sdk_path envNoSdk).1
        = .ok "C:\\Program Files\\NVIDIA Corporation\\NVIDIA Video Effects" ∧
      envNoSdk.onDisk "C:\\Program Files\\NVIDIA Corporation\\NVIDIA Video Effects" = false ∧
      vfx_ctor envNoSdk =
        (.error .sdkNotInstalled,
          [.gsEnter, .cudaEnter, .getEnvironmentVariable 0, .getKnownFolderPath,
           .fsExists "C:\\Program Files\\NVIDIA Corporation\\NVIDIA Video Effects",
           .cudaLeave, .gsLeave]) :=
  ⟨rfl, rfl,
    (missing_sdk_fails_before_load envNoSdk
      "C:\\Program Files\\NVIDIA Corporation\\NVIDIA Video Effects" rfl rfl).1⟩

set_option maxRecDepth 8192 in
/-- C3 as stated does not hold: it is not the case that whenever nothing exists
at the resolved SDK path the constructor fails with the SDK-not-installed
error. In `envProbeFails` the override names a path of 256 characters that does
not exist, `std::filesystem::exists` throws, and that exception is the one that
leaves the constructor. -/
theorem missing_sdk_error_may_be_filesystem_error :
    ¬ ∀ (env : Env) (p : String), (resolve_sdk_path env).1 = .ok p → env.onDisk p = false →
        (vfx_ctor env).1 = .error .sdkNotInstalled := by
  intro hall
  have h := hall envProbeFails ⟨List.replicate 256 'a' ++ ['\x00', '\x00']⟩ rfl rfl
  rw [show (vfx_ctor envProbeFails).1 = .error .filesystemError from rfl] at h
  injection h with h
  exact VfxError.noConfusion h

/-- C4: when `AddDllDirectory` delivers a cookie and both candidate paths fail
to load, the constructor calls `RemoveDllDirectory` with that cookie before it
throws the library-load-failed error, and the loader is in the state it was in
before the attempt. -/
theorem load_failure_restores_search_path (env : Env) (p : String) (l : Loader)
    (hr : (resolve_sdk_path env).1 = .ok p) (hp : fs_exists env p = some true)
    (hck : env.AddDllDirectory (c_str p) ≠ 0)
    (h1 : (env.load (LIB_NAME env.WIN32)).handle = none)
    (h2 : (env.load (env.native_to_utf8 (env.pathAppend p (LIB_NAME env.WIN32)))).handle
            = none) :
    vfx_ctor env =
        (.error .loadFailed,
          [.gsEnter, .cudaEnter] ++ (resolve_sdk_path env).2
            ++ [.fsExists p,
                .addDllDirectory (c_str p) (env.AddDllDirectory (c_str p)),
                .libraryLoad (LIB_NAME env.WIN32) (env.load (LIB_NAME env.WIN32)),
                .libraryLoad (env.native_to_utf8 (env.pathAppend p (LIB_NAME env.WIN32)))
                  (env.load (env.native_to_utf8 (env.pathAppend p (LIB_NAME env.WIN32)))),
                .removeDllDirectory (env.AddDllDirectory (c_str p)),
                .cudaLeave, .gsLeave]) ∧
      Loader.run l (vfx_ctor env).2 = l := by
  have hl : load_library env (candidates env p) none =
      (none, [.libraryLoad (LIB_NAME env.WIN32) (env.load (LIB_NAME env.WIN32)),
              .libraryLoad (env.native_to_utf8 (env.pathAppend p (LIB_NAME env.WIN32)))
                (env.load (env.native_to_utf8 (env.pathAppend p (LIB_NAME env.WIN32))))]) := by
    rw [candidates, load_library_two, h1, h2]
  have hc := vfx_ctor_load_failed env p _ hr hp hl
  simp only [hck, ne_eq, not_false_eq_true, if_true] at hc
  constructor
  · rw [hc]; simp
  · rw [hc]
    simp only [List.append_assoc, Loader.run_append, Loader.run_cons, Loader.run_nil, resolve_run,
      Loader.step_load_failed _ _ _ h1, Loader.step_load_failed _ _ _ h2]
    simp [Loader.step, hck]

theorem load_failure_restores_search_path_witness :
    (resolve_sdk_path envNoLibrary).1
        = .ok "C:\\Program Files\\NVIDIA Corporation\\NVIDIA Video Effects" ∧
      envNoLibrary.AddDllDirectory
          (c_str "C:\\Program Files\\NVIDIA Corporation\\NVIDIA Video Effects") ≠ 0 ∧
      Loader.run ⟨[3], [5]⟩ (vfx_ctor envNoLibrary).2 = ⟨[3], [5]⟩ :=
  ⟨rfl, by decide,
    (load_failure_restores_search_path envNoLibrary
      "C:\\Program Files\\NVIDIA Corporation\\NVIDIA Video Effects" ⟨[3], [5]⟩
      rfl rfl (by decide) rfl rfl).2⟩

/-! ## Failure while binding symbols -/

theorem symbol_missing_trace (env : Env) (p : String) (h : Nat)
    (hr : (resolve_sdk_path env).1 = .ok p) (hp : fs_exists env p = some true)
    (hl : (load_library env (candidates env p) none).1 = some h)
    (hmiss : ∃ n ∈ requiredSymbols, env.load_symbol h n = 0) :
    ∃ n sevs, n ∈ requiredSymbols ∧ env.load_symbol h n = 0 ∧
      (∀ ev ∈ sevs, ∃ m, ev = Event.loadSymbol m) ∧
      vfx_ctor env =
        (.error (.symbolMissing n),
          [.gsEnter, .cudaEnter] ++ (resolve_sdk_path env).2
            ++ [.fsExists p, .addDllDirectory (c_str p) (env.AddDllDirectory (c_str p))]
            ++ (load_library env (candidates env p) none).2
            ++ sevs ++ [.cudaLeave, .gsLeave] ++ [.libraryRelease h]) := by
  obtain ⟨n, hn, h0, hres⟩ := load_symbols_missing env h requiredSymbols hmiss []
  rcases hs : load_symbols env h requiredSymbols [] with ⟨e, tbl, sevs⟩
  rw [hs] at hres
  simp only at hres
  subst hres
  have hev := load_symbols_events env h requiredSymbols []
  rw [hs] at hev
  have hl2 : load_library env (candidates env p) none
      = (some h, (load_library env (candidates env p) none).2) := by rw [← hl]
  exact ⟨n, sevs, hn, h0, hev, vfx_ctor_symbol_missing env p _ sevs h _ tbl hr hp hl2 hs⟩

theorem symbol_missing_loader (env : Env) (p : String) (h : Nat) (l : Loader)
    (hr : (resolve_sdk_path env).1 = .ok p) (hp : fs_exists env p = some true)
    (hl : (load_library env (candidates env p) none).1 = some h)
    (hmiss : ∃ n ∈ requiredSymbols, env.load_symbol h n = 0) :
    Loader.run l (vfx_ctor env).2 =
      { dllDirs := if env.AddDllDirectory (c_str p) = 0 then l.dllDirs
                   else env.AddDllDirectory (c_str p) :: l.dllDirs,
        modules := l.modules } := by
  obtain ⟨n, sevs, _, _, hev, hc⟩ := symbol_missing_trace env p h hr hp hl hmiss
  rw [hc]
  have hlr := fun l2 => load_library_run env l2 (LIB_NAME env.WIN32)
    (env.native_to_utf8 (env.pathAppend p (LIB_NAME env.WIN32)))
  have hl3 : (load_library env [LIB_NAME env.WIN32,
      env.native_to_utf8 (env.pathAppend p (LIB_NAME env.WIN32))] none).1 = some h := hl
  simp only [hl3] at hlr
  simp only [List.append_assoc, Loader.run_append, resolve_run, candidates, hlr,
    Loader.run_symbols _ sevs hev]
  by_cases hck : env.AddDllDirectory (c_str p) = 0
  · simp [Loader.run, Loader.step, hck]
  · simp [Loader.run, Loader.step, hck]

/-- C5: a binding that the constructor returns has every required entry point
bound to a non-null address. When the library loads as module `h` and some
required entry point is absent from it, the constructor throws the
symbol-missing error, the last effect before the error reaches the caller is
the release of `h`, the set of mapped modules is what it was before the
attempt, and `get` passes the error on without storing anything. -/
theorem missing_symbol_fails_and_unloads (env : Env) (l : Loader) :
    (∀ self, (vfx_ctor env).1 = .ok self →
      ∃ h, self._library = some h ∧
        self.symbols = requiredSymbols.map (fun n => (n, env.load_symbol h n)) ∧
        ∀ n ∈ requiredSymbols, env.load_symbol h n ≠ 0) ∧
    (∀ p h, (resolve_sdk_path env).1 = .ok p → fs_exists env p = some true →
      (load_library env (candidates env p) none).1 = some h →
      (∃ n ∈ requiredSymbols, env.load_symbol h n = 0) →
      (∃ n ∈ requiredSymbols, env.load_symbol h n = 0 ∧
          (vfx_ctor env).1 = .error (.symbolMissing n) ∧
          ∀ s : Singleton, s.expired = true →
            get env s = (.error (.symbolMissing n), s, (vfx_ctor env).2)) ∧
        (vfx_ctor env).2.getLast? = some (.libraryRelease h) ∧
        (Loader.run l (vfx_ctor env).2).modules = l.modules) := by
  constructor
  · intro self hok
    rcases vfx_ctor_cases env with ⟨_, hc⟩ | ⟨_, _, _, _, hc⟩ | ⟨_, _, _, _, _, hc⟩ |
      ⟨_, _, _, _, _, _, _, _, _, _, _, hc⟩ | ⟨p, levs, h, _, _, _, hall, hc⟩
    · rw [hc] at hok; simp at hok
    · rw [hc] at hok; simp at hok
    · rw [hc] at hok; simp at hok
    · rw [hc] at hok; simp at hok
    · rw [hc] at hok
      simp only [Except.ok.injEq] at hok
      subst hok
      exact ⟨h, rfl, rfl, hall⟩
  · intro p h hr hp hl hmiss
    obtain ⟨n, sevs, hn, h0, _, hc⟩ := symbol_missing_trace env p h hr hp hl hmiss
    refine ⟨⟨n, hn, h0, by rw [hc], ?_⟩, ?_, ?_⟩
    · intro s hs
      rw [get_expired env s hs, construct, hc]
    · rw [hc]
      exact List.getLast?_concat _
    · rw [symbol_missing_loader env p h l hr hp hl hmiss]

theorem missing_symbol_fails_and_unloads_witness :
    (resolve_sdk_path envOldSdk).1
        = .ok "C:\\Program Files\\NVIDIA Corporation\\NVIDIA Video Effects" ∧
      (load_library envOldSdk (candidates envOldSdk
          "C:\\Program Files\\NVIDIA Corporation\\NVIDIA Video Effects") none).1 = some 1 ∧
      envOldSdk.load_symbol 1 "NvVFX_Run" = 0 ∧
      (vfx_ctor envOldSdk).2.getLast? = some (.libraryRelease 1) ∧
      (Loader.run ⟨[], [5]⟩ (vfx_ctor envOldSdk).2).modules = [5] :=
  have w := (missing_symbol_fails_and_unloads envOldSdk ⟨[], [5]⟩).2
    "C:\\Program Files\\NVIDIA Corporation\\NVIDIA Video Effects" 1 rfl rfl rfl
    ⟨"NvVFX_Run", by decide, rfl⟩
  ⟨rfl, rfl, rfl, w.2.1, w.2.2⟩

/-! ## The load step -/

theorem symbol_missing_keeps_search_path (env : Env) (p : String) (h : Nat) (l : Loader)
    (hr : (resolve_sdk_path env).1 = .ok p) (hp : fs_exists env p = some true)
    (hck : env.AddDllDirectory (c_str p) ≠ 0)
    (hl : (load_library env (candidates env p) none).1 = some h)
    (hmiss : ∃ n ∈ requiredSymbols, env.load_symbol h n = 0) :
    (Loader.run l (vfx_ctor env).2).dllDirs = env.AddDllDirectory (c_str p) :: l.dllDirs := by
  rw [symbol_missing_loader env p h l hr hp hl hmiss]
  simp [hck]

/-- C1, at the failing input `envOldSdk`: `AddDllDirectory` delivers cookie `7`,
the library loads as module `1`, `NvVFX_Run` does not resolve. The constructor
throws the symbol-missing error, its trace holds no `RemoveDllDirectory` call,
and the loader that started with no added directory ends with directory `7`
still added. -/
theorem symbol_failure_leaves_search_path :
    (vfx_ctor envOldSdk).1 = .error (.symbolMissing "NvVFX_Run") ∧
      Event.addDllDirectory "C:\\Program Files\\NVIDIA Corporation\\NVIDIA Video Effects" 7
        ∈ (vfx_ctor envOldSdk).2 ∧
      (∀ ck, Event.removeDllDirectory ck ∉ (vfx_ctor envOldSdk).2) ∧
      Loader.run ⟨[], []⟩ (vfx_ctor envOldSdk).2 = ⟨[7], []⟩ := by
  refine ⟨rfl, by decide, ?_, by decide⟩
  intro ck hmem
  have hall : ∀ ev ∈ (vfx_ctor envOldSdk).2,
      (match ev with
       | .removeDllDirectory _ => false
       | _ => true) = true := by decide
  exact absurd (hall _ hmem) (by simp)

/-! ## Teardown -/

theorem vfx_ctor_ok_library (env : Env) (self : Vfx) (hok : (vfx_ctor env).1 = .ok self) :
    env.WIN32 = true ∧ ∃ p h, (resolve_sdk_path env).1 = .ok p ∧ self._library = some h ∧
      self._extra = env.AddDllDirectory (c_str p) ∧
      self._model_path = env.pathAppend p "models" := by
  rcases vfx_ctor_cases env with ⟨_, hc⟩ | ⟨_, _, _, _, hc⟩ | ⟨_, _, _, _, _, hc⟩ |
    ⟨_, _, _, _, _, _, _, _, _, _, _, hc⟩ | ⟨p, levs, h, hr, _, _, _, hc⟩
  · rw [hc] at hok; simp at hok
  · rw [hc] at hok; simp at hok
  · rw [hc] at hok; simp at hok
  · rw [hc] at hok; simp at hok
  · rw [hc] at hok
    simp only [Except.ok.injEq] at hok
    subst hok
    exact ⟨resolve_ok_win32 env p hr, p, h, hr, rfl, rfl, rfl⟩

/-- C2 as amended: for every binding the constructor returned that holds a
search-path cookie, the destructor first calls `RemoveDllDirectory` with the
cookie, then takes the graphics guard and the CUDA guard, releases the library
and drops the guards: the removal of the cookie precedes the library
release. -/
theorem teardown_removes_token_then_library (env : Env) (self : Vfx)
    (hok : (vfx_ctor env).1 = .ok self) (hx : self._extra ≠ 0) :
    ∃ h, self._library = some h ∧
      vfx_dtor env.WIN32 self =
        [.removeDllDirectory self._extra, .gsEnter, .cudaEnter, .libraryRelease h,
         .cudaLeave, .gsLeave] ∧
      precedes (.removeDllDirectory self._extra) (.libraryRelease h)
        (vfx_dtor env.WIN32 self) = true := by
  obtain ⟨hw, p, h, _, hlib, _, _⟩ := vfx_ctor_ok_library env self hok
  have hd : vfx_dtor env.WIN32 self =
      [.removeDllDirectory self._extra, .gsEnter, .cudaEnter, .libraryRelease h,
       .cudaLeave, .gsLeave] := by
    simp [vfx_dtor, hw, hx, hlib]
  refine ⟨h, hlib, hd, ?_⟩
  rw [hd]
  simp [precedes, List.indexOf_cons]

theorem teardown_removes_token_then_library_witness :
    (vfx_ctor envInstalled).1 = .ok vfxInstalled ∧ vfxInstalled._extra ≠ 0 ∧
      ∃ h, vfxInstalled._library = some h ∧
        vfx_dtor envInstalled.WIN32 vfxInstalled =
          [.removeDllDirectory vfxInstalled._extra, .gsEnter, .cudaEnter, .libraryRelease h,
           .cudaLeave, .gsLeave] ∧
        precedes (.removeDllDirectory vfxInstalled._extra) (.libraryRelease h)
          (vfx_dtor envInstalled.WIN32 vfxInstalled) = true :=
  ⟨rfl, by decide,
    teardown_removes_token_then_library envInstalled vfxInstalled rfl (by decide)⟩

/-- C2 as stated does not hold: it is not the case that for every binding the
constructor returned with a search-path cookie the library release precedes
the removal of the cookie. -/
theorem teardown_library_first_fails :
    ¬ ∀ (env : Env) (self : Vfx), (vfx_ctor env).1 = .ok self → self._extra ≠ 0 →
        ∃ h, self._library = some h ∧
          precedes (.libraryRelease h) (.removeDllDirectory self._extra)
            (vfx_dtor env.WIN32 self) = true := by
  intro hall
  obtain ⟨h, hlib, hprec⟩ := hall envInstalled vfxInstalled rfl (by decide)
  have h1 : h = 1 := by
    have : some 1 = some h := hlib
    injection this with this
    exact this.symm
  subst h1
  exact absurd hprec (by decide)

/-! ## The resolved root -/

theorem takeWhile_nul (v : List Char) (hv : ∀ c ∈ v, c ≠ '\x00') :
    (v ++ ['\x00', '\x00']).takeWhile (fun c => c ≠ '\x00') = v := by
  induction v with
  | nil => simp [List.takeWhile]
  | cons c cs ih =>
    have hc : c ≠ '\x00' := hv c (List.mem_cons_self c cs)
    have hcs : ∀ d ∈ cs, d ≠ '\x00' := fun d hd => hv d (List.mem_cons_of_mem c hd)
    have h2 := ih hcs
    simp only [ne_eq, decide_not] at h2
    simp [List.takeWhile, hc, h2]

/-- What path resolution does on Windows. When the override variable is
defined with value `v`, the folder probe is not performed and the root is `v`
followed by two NUL characters; read as a C string it is `v` when `v` holds no
NUL. When the variable is not defined and the folder probe succeeds, the root
is the program files folder with the two fixed components appended. A binding
that is returned has the root joined with `models` as its model path. -/
theorem path_resolution (env : Env) (hw : env.WIN32 = true) :
    (∀ v, env.NV_VIDEO_EFFECTS_PATH = some v →
      resolve_sdk_path env =
          (.ok ⟨v.data ++ ['\x00', '\x00']⟩,
            [.getEnvironmentVariable 0, .getEnvironmentVariable (v.length + 2)]) ∧
        ((∀ c ∈ v.data, c ≠ '\x00') → c_str ⟨v.data ++ ['\x00', '\x00']⟩ = v)) ∧
    (env.NV_VIDEO_EFFECTS_PATH = none → ∀ str, env.programFiles = some str →
      resolve_sdk_path env =
        (.ok (env.pathAppend (env.pathAppend str "NVIDIA Corporation") "NVIDIA Video Effects"),
          [.getEnvironmentVariable 0, .getKnownFolderPath])) ∧
    (∀ self, (vfx_ctor env).1 = .ok self →
      ∃ p, (resolve_sdk_path env).1 = .ok p ∧ model_path self = env.pathAppend p "models") := by
  refine ⟨?_, ?_, ?_⟩
  · intro v hv
    refine ⟨resolve_defined env v hw hv, ?_⟩
    intro hnul
    simp only [c_str, takeWhile_nul v.data hnul]
  · intro hv str hs
    rw [resolve_absent env hw hv, hs]
  · intro self hok
    obtain ⟨_, p, _, hr, _, _, hm⟩ := vfx_ctor_ok_library env self hok
    exact ⟨p, hr, hm⟩

/-- C9, at the failing input `envOverride`: the override variable holds the six
characters `C:\SDK`. The size query reports `7`, the buffer gets `8`
characters, and all `8` of them become the root: `C:\SDK` followed by two NUL
characters. The folder probe is not performed. The root differs from the
override value, and the model path of the binding carries the two NUL
characters in front of `models`. -/
theorem override_root_is_padded :
    envOverride.NV_VIDEO_EFFECTS_PATH = some "C:\\SDK" ∧
      resolve_sdk_path envOverride =
        (.ok "C:\\SDK\x00\x00", [.getEnvironmentVariable 0, .getEnvironmentVariable 8]) ∧
      (resolve_sdk_path envOverride).1 ≠ .ok "C:\\SDK" ∧
      (vfx_ctor envOverride).1 =
        .ok { vfxInstalled with _model_path := "C:\\SDK\x00\x00\\models" } ∧
      sampleAppend "C:\\SDK" "models" = "C:\\SDK\\models" := by
  refine ⟨rfl, rfl, ?_, rfl, by decide⟩
  rw [show (resolve_sdk_path envOverride).1 = .ok "C:\\SDK\x00\x00" from rfl]
  intro h
  injection h with h
  exact absurd h (by decide)

/-! ## Guards -/

theorem load_library_events (env : Env) (ps : List String) :
    ∀ ev ∈ (load_library env ps none).2, ev.isLoad = true := by
  induction ps with
  | nil => simp [load_library]
  | cons a rest ih =>
    intro ev hev
    cases ha : env.load a with
    | threw =>
      simp only [load_library, ha, Option.isSome_none, Bool.false_eq_true, if_false,
        List.mem_cons] at hev
      rcases hev with rfl | hev
      · rfl
      · exact ih ev hev
    | returned x =>
      cases x with
      | none =>
        simp only [load_library, ha, Option.isSome_none, Bool.false_eq_true, if_false,
          List.mem_cons] at hev
        rcases hev with rfl | hev
        · rfl
        · exact ih ev hev
      | some h =>
        simp only [load_library, ha, Option.isSome_some, if_true, List.mem_singleton] at hev
        subst hev
        rfl

theorem held_of_not_guard (e : Event) (h : e.isGuard = false) :
    gsHeld [e] = 0 ∧ cudaHeld [e] = 0 := by
  cases e <;> simp [gsHeld, cudaHeld, Event.isGuard] at h ⊢

theorem guardedAt_quiet (crit : Event → Bool) (g c : Int) (hg : 0 < g) (hc : 0 < c)
    (q rest : List Event) (hq : ∀ ev ∈ q, ev.isGuard = false) :
    guardedAt crit g c (q ++ rest) = guardedAt crit g c rest := by
  induction q with
  | nil => rfl
  | cons e es ih =>
    have he := held_of_not_guard e (hq e (List.mem_cons_self e es))
    have hes : ∀ ev ∈ es, ev.isGuard = false := fun ev hev => hq ev (List.mem_cons_of_mem e hev)
    simp [guardedAt, he.1, he.2, hg, hc, ih hes]

theorem guardedAt_uncritical (crit : Event → Bool) (g c : Int)
    (q rest : List Event) (hq : ∀ ev ∈ q, ev.isGuard = false ∧ crit ev = false) :
    guardedAt crit g c (q ++ rest) = guardedAt crit g c rest := by
  induction q with
  | nil => rfl
  | cons e es ih =>
    have he := held_of_not_guard e (hq e (List.mem_cons_self e es)).1
    have hce := (hq e (List.mem_cons_self e es)).2
    have hes : ∀ ev ∈ es, ev.isGuard = false ∧ crit ev = false :=
      fun ev hev => hq ev (List.mem_cons_of_mem e hev)
    simp [guardedAt, he.1, he.2, hce, ih hes]

theorem wellNested_quiet (held : List Guard) (q rest : List Event)
    (hq : ∀ ev ∈ q, ev.isGuard = false) :
    wellNested held (q ++ rest) = wellNested held rest := by
  induction q with
  | nil => rfl
  | cons e es ih =>
    have he := hq e (List.mem_cons_self e es)
    have hes : ∀ ev ∈ es, ev.isGuard = false := fun ev hev => hq ev (List.mem_cons_of_mem e hev)
    cases e <;> simp [Event.isGuard] at he <;> simp [wellNested, ih hes]

theorem load_not_guard (ev : Event) (h : ev.isLoad = true) :
    ev.isGuard = false ∧ ev.isRelease = false := by
  cases ev <;> simp [Event.isLoad, Event.isGuard, Event.isRelease] at h ⊢

theorem symbol_not_guard (ev : Event) (h : ∃ m, ev = Event.loadSymbol m) :
    ev.isGuard = false ∧ ev.isRelease = false := by
  obtain ⟨m, rfl⟩ := h
  exact ⟨rfl, rfl⟩

theorem forall_mem_append_of {P : Event → Prop} (a b : List Event)
    (ha : ∀ ev ∈ a, P ev) (hb : ∀ ev ∈ b, P ev) : ∀ ev ∈ a ++ b, P ev := by
  intro ev hev
  rcases List.mem_append.mp hev with h | h
  · exact ha ev h
  · exact hb ev h

theorem guardedAt_enter (crit : Event → Bool) (hg : crit .gsEnter = false)
    (hc : crit .cudaEnter = false) (es : List Event) :
    guardedAt crit 0 0 (.gsEnter :: .cudaEnter :: es) = guardedAt crit 1 1 es := by
  simp [guardedAt, gsHeld, cudaHeld, hg, hc]

theorem wellNested_enter (es : List Event) :
    wellNested [] (.gsEnter :: .cudaEnter :: es) = wellNested [.cuda, .gs] es := rfl

theorem trace_cons (q tail : List Event) :
    [Event.gsEnter, Event.cudaEnter] ++ q ++ tail = .gsEnter :: .cudaEnter :: (q ++ tail) := by
  simp

theorem resolve_quiet (env : Env) :
    ∀ ev ∈ (resolve_sdk_path env).2, ev.isGuard = false ∧ ev.isRelease = false :=
  fun ev hev => ⟨(resolve_events env ev hev).2.2.1, (resolve_events env ev hev).2.2.2⟩

/-- The shape of every constructor trace: both guards are taken, then come
events that neither touch a guard nor release a library, then the end of the
body. A returned binding ends with the device assignment under a nested CUDA
guard. A thrown error ends with the two guards dropped, followed by the release
of the library when one was loaded. -/
theorem vfx_ctor_skeleton (env : Env) :
    ∃ q tail, (vfx_ctor env).2 = [.gsEnter, .cudaEnter] ++ q ++ tail ∧
      (∀ ev ∈ q, ev.isGuard = false ∧ ev.isRelease = false) ∧
      ((∃ self, (vfx_ctor env).1 = .ok self ∧
          tail = [.cudaEnter, .setGpu, .cudaLeave, .cudaLeave, .gsLeave]) ∨
       (∃ e, (vfx_ctor env).1 = .error e ∧
          (tail = [.cudaLeave, .gsLeave] ∨
            ∃ h, tail = [.cudaLeave, .gsLeave, .libraryRelease h]))) := by
  rcases vfx_ctor_cases env with ⟨_, hc⟩ | ⟨p, _, _, _, hc⟩ | ⟨p, levs, _, _, hl, hc⟩ |
    ⟨p, levs, sevs, h, n, _, _, hl, _, _, hsev, hc⟩ | ⟨p, levs, h, _, _, hl, _, hc⟩
  · refine ⟨[], [.cudaLeave, .gsLeave], by rw [hc]; rfl, by simp, Or.inr ⟨_, by rw [hc], Or.inl rfl⟩⟩
  · refine ⟨(resolve_sdk_path env).2 ++ [.fsExists p], [.cudaLeave, .gsLeave],
      by rw [hc]; simp, ?_, Or.inr ⟨_, by rw [hc], Or.inl rfl⟩⟩
    exact forall_mem_append_of _ _ (resolve_quiet env) (by simp [Event.isGuard, Event.isRelease])
  · have hlev : ∀ ev ∈ levs, ev.isLoad = true := by
      have := load_library_events env (candidates env p)
      rwa [hl] at this
    refine ⟨(resolve_sdk_path env).2
        ++ [.fsExists p, .addDllDirectory (c_str p) (env.AddDllDirectory (c_str p))] ++ levs
        ++ (if env.AddDllDirectory (c_str p) ≠ 0
            then [.removeDllDirectory (env.AddDllDirectory (c_str p))] else []),
      [.cudaLeave, .gsLeave], by rw [hc]; simp, ?_, Or.inr ⟨_, by rw [hc], Or.inl rfl⟩⟩
    refine forall_mem_append_of _ _ (forall_mem_append_of _ _
      (forall_mem_append_of _ _ (resolve_quiet env) ?_)
      (fun ev hev => load_not_guard ev (hlev ev hev))) ?_
    · simp [Event.isGuard, Event.isRelease]
    · split <;> simp [Event.isGuard, Event.isRelease]
  · have hlev : ∀ ev ∈ levs, ev.isLoad = true := by
      have := load_library_events env (candidates env p)
      rwa [hl] at this
    refine ⟨(resolve_sdk_path env).2
        ++ [.fsExists p, .addDllDirectory (c_str p) (env.AddDllDirectory (c_str p))] ++ levs
        ++ sevs,
      [.cudaLeave, .gsLeave, .libraryRelease h], by rw [hc]; simp, ?_,
      Or.inr ⟨_, by rw [hc], Or.inr ⟨h, rfl⟩⟩⟩
    refine forall_mem_append_of _ _ (forall_mem_append_of _ _
      (forall_mem_append_of _ _ (resolve_quiet env) ?_)
      (fun ev hev => load_not_guard ev (hlev ev hev)))
      (fun ev hev => symbol_not_guard ev (hsev ev hev))
    simp [Event.isGuard, Event.isRelease]
  · have hlev : ∀ ev ∈ levs, ev.isLoad = true := by
      have := load_library_events env (candidates env p)
      rwa [hl] at this
    refine ⟨(resolve_sdk_path env).2
        ++ [.fsExists p, .addDllDirectory (c_str p) (env.AddDllDirectory (c_str p))] ++ levs
        ++ requiredSymbols.map Event.loadSymbol,
      [.cudaEnter, .setGpu, .cudaLeave, .cudaLeave, .gsLeave], by rw [hc]; simp, ?_,
      Or.inl ⟨_, by rw [hc], rfl⟩⟩
    refine forall_mem_append_of _ _ (forall_mem_append_of _ _
      (forall_mem_append_of _ _ (resolve_quiet env) ?_)
      (fun ev hev => load_not_guard ev (hlev ev hev))) ?_
    · simp [Event.isGuard, Event.isRelease]
    · intro ev hev
      obtain ⟨m, _, rfl⟩ := List.mem_map.mp hev
      exact ⟨rfl, rfl⟩

/-- What holds of the guards in every run of the constructor: the graphics
guard is taken first and the CUDA guard second, guards are dropped in the
reverse order of their acquisition on every path, every library load attempt
happens while both are held, and a run that returns a binding releases no
library. -/
theorem ctor_guard_discipline (env : Env) :
    (∃ rest, (vfx_ctor env).2 = .gsEnter :: .cudaEnter :: rest) ∧
      wellNested [] (vfx_ctor env).2 = true ∧
      guardedAt Event.isLoad 0 0 (vfx_ctor env).2 = true ∧
      (∀ self, (vfx_ctor env).1 = .ok self →
        ∀ ev ∈ (vfx_ctor env).2, ev.isRelease = false) := by
  obtain ⟨q, tail, ht, hq, htail⟩ := vfx_ctor_skeleton env
  have hqg : ∀ ev ∈ q, ev.isGuard = false := fun ev hev => (hq ev hev).1
  refine ⟨⟨q ++ tail, by rw [ht]; simp⟩, ?_, ?_, ?_⟩
  · rw [ht, trace_cons, wellNested_enter, wellNested_quiet _ q tail hqg]
    rcases htail with ⟨_, _, rfl⟩ | ⟨_, _, rfl | ⟨h, rfl⟩⟩ <;> rfl
  · rw [ht, trace_cons, guardedAt_enter _ rfl rfl,
      guardedAt_quiet _ 1 1 (by decide) (by decide) q tail hqg]
    rcases htail with ⟨_, _, rfl⟩ | ⟨_, _, rfl | ⟨h, rfl⟩⟩ <;> rfl
  · intro self hok ev hev
    rcases htail with ⟨_, _, rfl⟩ | ⟨e, he, _⟩
    · rw [ht] at hev
      simp only [List.mem_append, List.mem_cons, List.mem_singleton, List.not_mem_nil,
        or_false] at hev
      rcases hev with ((rfl | rfl) | hev) | rfl | rfl | rfl | rfl | rfl
      · rfl
      · rfl
      · exact (hq ev hev).2
      · rfl
      · rfl
      · rfl
      · rfl
      · rfl
    · rw [hok] at he
      simp at he

/-- What holds of the guards in every run of the destructor: the graphics guard
is taken first and the CUDA guard second, the library release happens while
both are held, and the guards are dropped in reverse order. -/
theorem dtor_guard_discipline (WIN32 : Bool) (self : Vfx) :
    (∃ pre rest, vfx_dtor WIN32 self = pre ++ .gsEnter :: .cudaEnter :: rest ∧
        ∀ ev ∈ pre, ev.isGuard = false) ∧
      wellNested [] (vfx_dtor WIN32 self) = true ∧
      guardedAt Event.isRelease 0 0 (vfx_dtor WIN32 self) = true ∧
      ∃ pre, vfx_dtor WIN32 self = pre ++ [.cudaLeave, .gsLeave] := by
  unfold vfx_dtor
  refine ⟨⟨_, _, by rw [List.append_assoc, List.append_assoc]; rfl, ?_⟩, ?_, ?_,
    ⟨_, rfl⟩⟩
  · intro ev hev
    split at hev
    · simp only [List.mem_singleton] at hev
      subst hev
      rfl
    · simp at hev
  · cases self._library <;> split <;> rfl
  · cases self._library <;> split <;> rfl

theorem gsHeld_cons (e : Event) (es : List Event) : gsHeld (e :: es) = gsHeld [e] + gsHeld es := by
  cases e <;> simp [gsHeld] <;> omega

theorem cudaHeld_cons (e : Event) (es : List Event) :
    cudaHeld (e :: es) = cudaHeld [e] + cudaHeld es := by
  cases e <;> simp [cudaHeld] <;> omega

/-- The meaning of `guardedAt`: whenever the trace splits at an event that
satisfies `crit`, the events before it leave at least one graphics guard and
at least one CUDA guard held. -/
theorem guardedAt_sound (crit : Event → Bool) (evs : List Event) (g c : Int)
    (h : guardedAt crit g c evs = true) (pre : List Event) (ev : Event) (post : List Event)
    (hsplit : evs = pre ++ ev :: post) (hcrit : crit ev = true) :
    0 < g + gsHeld pre ∧ 0 < c + cudaHeld pre := by
  induction pre generalizing evs g c with
  | nil =>
    subst hsplit
    simp only [List.nil_append, guardedAt, hcrit, Bool.not_true, Bool.false_or, Bool.and_eq_true,
      decide_eq_true_eq] at h
    simpa [gsHeld, cudaHeld] using h.1
  | cons e es ih =>
    subst hsplit
    simp only [List.cons_append, guardedAt, Bool.and_eq_true] at h
    have := ih _ _ _ h.2 rfl
    rw [gsHeld_cons e es, cudaHeld_cons e es]
    omega

/-- C6, at the failing input `envOldSdk`: the library loads as module `1` and
`NvVFX_Run` does not resolve. The constructor throws, the CUDA guard and the
graphics guard are dropped, and only then module `1` is released, as the last
event of the run, at a point where no guard is held. -/
theorem failed_construction_releases_unguarded :
    (vfx_ctor envOldSdk).1 = .error (.symbolMissing "NvVFX_Run") ∧
      (vfx_ctor envOldSdk).2.drop 29 = [.cudaLeave, .gsLeave, .libraryRelease 1] ∧
      (vfx_ctor envOldSdk).2.length = 32 ∧
      gsHeld ((vfx_ctor envOldSdk).2.take 31) = 0 ∧
      cudaHeld ((vfx_ctor envOldSdk).2.take 31) = 0 ∧
      guardedAt Event.isRelease 0 0 (vfx_ctor envOldSdk).2 = false := by
  refine ⟨rfl, by decide, by decide, by decide, by decide, by decide⟩

/-! ## The accessor -/

theorem get_alive (env : Env) (s : Singleton) (id : Nat) (self : Vfx)
    (hw : s.weak_instance = some (id, self)) (hs : 0 < s.strong) :
    get env s = (.ok id, { s with strong := s.strong + 1 }, []) := by
  have h0 : s.strong ≠ 0 := by omega
  simp [get, hw, h0]

theorem release_shared (W : Bool) (s : Singleton) (id : Nat) (self : Vfx)
    (hw : s.weak_instance = some (id, self)) (hs : 1 < s.strong) :
    release W s = ({ s with strong := s.strong - 1 }, []) := by
  have h1 : s.strong ≠ 1 := by omega
  simp [release, hw, h1]

/-- C7: while the binding `id` stays owned by someone, before and after every
operation of a sequence of `get` calls and releases, every `get` call of the
sequence returns `id`, no event happens (nothing is constructed, nothing is
torn down), the weak pointer keeps referring to the same object and no object
is created. -/
theorem get_returns_live_instance (WIN32 : Bool) (ops : List Op) (s : Singleton) (id : Nat)
    (self : Vfx) (hw : s.weak_instance = some (id, self)) (hown : stays_owned ops s.strong) :
    (run WIN32 ops s).1 = List.replicate (ops.filter Op.isGet).length (.ok id) ∧
      (run WIN32 ops s).2.2 = [] ∧
      (run WIN32 ops s).2.1.weak_instance = some (id, self) ∧
      (run WIN32 ops s).2.1.created = s.created := by
  induction ops generalizing s with
  | nil => simp [run, hw]
  | cons op rest ih =>
    cases op with
    | get env =>
      obtain ⟨hpos, hrest⟩ := hown
      have hg := get_alive env s id self hw hpos
      have := ih { s with strong := s.strong + 1 } hw hrest
      simp only [run, hg, List.nil_append, List.filter_cons, Op.isGet, if_true, List.length_cons,
        List.replicate_succ]
      exact ⟨by rw [this.1], this.2.1, this.2.2.1, this.2.2.2⟩
    | release =>
      obtain ⟨hpos, hrest⟩ := hown
      have hr := release_shared WIN32 s id self hw hpos
      have := ih { s with strong := s.strong - 1 } hw hrest
      simp only [run, hr, List.nil_append, List.filter_cons, Op.isGet, Bool.false_eq_true,
        if_false]
      exact this

theorem get_returns_live_instance_witness :
    (get envInstalled Singleton.init).2.1.weak_instance = some (0, vfxInstalled) ∧
      stays_owned [.get envInstalled, .get envNoSdk, .release, .get envOldSdk]
        (get envInstalled Singleton.init).2.1.strong ∧
      (run true [.get envInstalled, .get envNoSdk, .release, .get envOldSdk]
          (get envInstalled Singleton.init).2.1).1 = [.ok 0, .ok 0, .ok 0] ∧
      (run true [.get envInstalled, .get envNoSdk, .release, .get envOldSdk]
          (get envInstalled Singleton.init).2.1).2.2 = [] :=
  have hown : stays_owned [.get envInstalled, .get envNoSdk, .release, .get envOldSdk]
      (get envInstalled Singleton.init).2.1.strong := by
    simp only [stays_owned]
    decide
  have w := get_returns_live_instance true
    [.get envInstalled, .get envNoSdk, .release, .get envOldSdk]
    (get envInstalled Singleton.init).2.1 0 vfxInstalled rfl hown
  ⟨rfl, hown, w.1, w.2.1⟩

/-- C8: `get` runs the constructor whenever no live binding exists. The state
at program start is expired, the state after the last owner released the
binding is expired, and a state is as expired after a failed `get` as before.
On an expired state the events of `get` are those of one constructor run. When
the constructor throws, the error reaches the caller and the state, the weak
pointer included, is unchanged. When it returns, the trace runs from path
resolution through the existence check, the search-path injection, the load
attempts and the 23 symbol lookups to the device assignment, and the weak
pointer refers to the new object. -/
theorem get_constructs_when_expired (env : Env) (s : Singleton) (WIN32 : Bool) :
    Singleton.init.expired = true ∧
      (s.strong = 1 → (release WIN32 s).1.expired = true) ∧
      (s.expired = true →
        (get env s).2.2 = (vfx_ctor env).2 ∧
        (∀ e, (vfx_ctor env).1 = .error e →
          get env s = (.error e, s, (vfx_ctor env).2) ∧ (get env s).2.1.expired = true) ∧
        (∀ self, (vfx_ctor env).1 = .ok self →
          get env s =
              (.ok s.created,
                { weak_instance := some (s.created, self), strong := 1,
                  created := s.created + 1 },
                (vfx_ctor env).2) ∧
            ∃ p levs, (resolve_sdk_path env).1 = .ok p ∧
              (vfx_ctor env).2 =
                [.gsEnter, .cudaEnter] ++ (resolve_sdk_path env).2
                  ++ [.fsExists p,
                      .addDllDirectory (c_str p) (env.AddDllDirectory (c_str p))]
                  ++ levs ++ requiredSymbols.map Event.loadSymbol
                  ++ [.cudaEnter, .setGpu, .cudaLeave] ++ [.cudaLeave, .gsLeave] ∧
              levs = (load_library env (candidates env p) none).2 ∧ levs ≠ [])) := by
  refine ⟨rfl, ?_, ?_⟩
  · intro h1
    unfold release
    cases hw : s.weak_instance with
    | none => simp [Singleton.expired, hw]
    | some x => simp [h1, Singleton.expired, hw]
  · intro hexp
    have hg := get_expired env s hexp
    refine ⟨?_, ?_, ?_⟩
    · rw [hg, construct]
      rcases hc : vfx_ctor env with ⟨r, evs⟩
      cases r <;> rfl
    · intro e he
      have hc : vfx_ctor env = (.error e, (vfx_ctor env).2) := by rw [← he]
      have hge : get env s = (.error e, s, (vfx_ctor env).2) := by
        rw [hg, construct]
        rw [hc]
      exact ⟨hge, by rw [hge]; exact hexp⟩
    · intro self hok
      have hc : vfx_ctor env = (.ok self, (vfx_ctor env).2) := by rw [← hok]
      refine ⟨by rw [hg, construct]; rw [hc], ?_⟩
      rcases vfx_ctor_cases env with ⟨_, hc2⟩ | ⟨_, _, _, _, hc2⟩ | ⟨_, _, _, _, _, hc2⟩ |
        ⟨_, _, _, _, _, _, _, _, _, _, _, hc2⟩ | ⟨p, levs, h, hr, _, hl, _, hc2⟩
      · rw [hc2] at hok; simp at hok
      · rw [hc2] at hok; simp at hok
      · rw [hc2] at hok; simp at hok
      · rw [hc2] at hok; simp at hok
      · refine ⟨p, levs, hr, by rw [hc2], by rw [hl], ?_⟩
        intro hnil
        subst hnil
        rw [candidates, load_library_two] at hl
        cases ha : (env.load (LIB_NAME env.WIN32)).handle <;> rw [ha] at hl <;> simp at hl

theorem get_constructs_when_expired_witness :
    Singleton.init.expired = true ∧
      (vfx_ctor envInstalled).1 = .ok vfxInstalled ∧
      get envInstalled Singleton.init =
        (.ok 0, { weak_instance := some (0, vfxInstalled), strong := 1, created := 1 },
          (vfx_ctor envInstalled).2) :=
  ⟨rfl, rfl,
    (((get_constructs_when_expired envInstalled Singleton.init true).2.2 rfl).2.2
      vfxInstalled rfl).1⟩

end streamfx.nvidia.vfx
